import Mathlib

/-!
Verification development for the functionApps ingestion pipeline.

The repository is a family of Azure timer functions (froniusSolar,
smartflow, smappee, smappee_uae, octopusEnergy) that fetch vendor
telemetry, normalize it into canonical rows, and insert the rows into a
shared TimescaleDB table with an insert-or-ignore conflict policy on the
natural key.  This file gives a shallow embedding of the relevant source
functions and proves or refutes the spec claims about them.
-/

set_option linter.unusedVariables false

namespace FunctionApps

/-! ## Store model

The destination table `test_table_main` / `main` has columns
(time, client_id, location_id, metric, value, gateway, sensor, note)
and a uniqueness constraint over
(time, client_id, location_id, metric, gateway, sensor).
Timestamps are modelled as epoch seconds (`Int`) and SQL doubles as `Rat`.
-/

structure CanonicalRow where
  time : Int
  client_id : String
  location_id : String
  metric : String
  value : Rat
  gateway : String
  sensor : Int
  note : String
deriving DecidableEq, Repr

/-- The natural key of a row, the column tuple of the uniqueness
constraint of the table: (time, client_id, location_id, metric, gateway, sensor). -/
def naturalKey (r : CanonicalRow) : Int × String × String × String × String × Int :=
  (r.time, r.client_id, r.location_id, r.metric, r.gateway, r.sensor)

/-- Whether some stored row already carries the natural key of `r`. -/
def hasKey (store : List CanonicalRow) (r : CanonicalRow) : Bool :=
  store.any (fun x => decide (naturalKey x = naturalKey r))

/-- SQL semantics of inserting one row under
ON CONFLICT (time, client_id, location_id, metric, gateway, sensor)
DO NOTHING: the existing row wins, the incoming row is dropped. -/
def insertOnConflictDoNothing (store : List CanonicalRow) (r : CanonicalRow) :
    List CanonicalRow :=
  if hasKey store r then store else store ++ [r]

/-- Bulk insert of a batch (executemany over the parameterized INSERT, or
the INSERT ... SELECT from the COPY staging table): rows are processed in
sequence, each under the DO NOTHING conflict policy, so within one batch
the first row carrying a natural key wins as well. -/
def insertManyOnConflict (store : List CanonicalRow) (rows : List CanonicalRow) :
    List CanonicalRow :=
  rows.foldl insertOnConflictDoNothing store

/-- Observable outcome of one writer invocation: how many database
round-trips were performed, the resulting store contents, and whether the
writer reported success. -/
structure WriteResult where
  dbCalls : Nat
  store : List CanonicalRow
  ok : Bool
deriving DecidableEq, Repr

/-- froniusSolar/helpers/helpers.py, write_to_timescale: an empty batch
returns immediately after logging, performing no database operation at
all; otherwise one _query_db call executes the batched
INSERT ... ON CONFLICT ... DO NOTHING. -/
def write_to_timescale (store : List CanonicalRow) (rows : List CanonicalRow) :
    WriteResult :=
  if rows.isEmpty then
    { dbCalls := 0, store := store, ok := true }
  else
    { dbCalls := 1, store := insertManyOnConflict store rows, ok := true }

namespace Smartflow

/-- smartflow/helpers/helpers.py, _write_to_tsdb (lines 223-239): same
shape as the froniusSolar writer; an empty row list returns before any
database access, otherwise one executemany of the same conflict-safe
INSERT runs. -/
def _write_to_tsdb (store : List CanonicalRow) (rows : List CanonicalRow) :
    WriteResult :=
  if rows.isEmpty then
    { dbCalls := 0, store := store, ok := true }
  else
    { dbCalls := 1, store := insertManyOnConflict store rows, ok := true }

end Smartflow

namespace Smappee

/-- smappee/helpers/helpers.py, _write_to_tsdb (lines 318-415), the
stage-then-merge strategy: COPY the batch into the temporary table
_ingest_main, then INSERT ... SELECT into test_table_main with
ON CONFLICT (time, client_id, location_id, metric, gateway, sensor)
DO NOTHING.  The observable store effect is the same sequential
insert-or-ignore over the batch. -/
def _write_to_tsdb (store : List CanonicalRow) (rows : List CanonicalRow) :
    List CanonicalRow :=
  insertManyOnConflict store rows

end Smappee

lemma hasKey_append (s t : List CanonicalRow) (r : CanonicalRow) :
    hasKey (s ++ t) r = (hasKey s r || hasKey t r) := by
  simp [hasKey, List.any_append]

lemma hasKey_insert (s : List CanonicalRow) (x r : CanonicalRow)
    (h : hasKey s r = true) :
    hasKey (insertOnConflictDoNothing s x) r = true := by
  unfold insertOnConflictDoNothing
  split
  · exact h
  · rw [hasKey_append, h, Bool.true_or]

lemma hasKey_insert_self (s : List CanonicalRow) (x : CanonicalRow) :
    hasKey (insertOnConflictDoNothing s x) x = true := by
  unfold insertOnConflictDoNothing
  split
  · assumption
  · rw [hasKey_append]
    have : hasKey [x] x = true := by simp [hasKey]
    rw [this, Bool.or_true]

lemma hasKey_insertMany (s : List CanonicalRow) (rows : List CanonicalRow)
    (r : CanonicalRow) (h : hasKey s r = true) :
    hasKey (insertManyOnConflict s rows) r = true := by
  induction rows generalizing s with
  | nil => exact h
  | cons x xs ih =>
      exact ih (insertOnConflictDoNothing s x) (hasKey_insert s x r h)

lemma hasKey_insertMany_of_mem (s : List CanonicalRow) (rows : List CanonicalRow)
    (r : CanonicalRow) (h : r ∈ rows) :
    hasKey (insertManyOnConflict s rows) r = true := by
  induction rows generalizing s with
  | nil => cases h
  | cons x xs ih =>
      rcases List.mem_cons.mp h with h1 | h2
      · subst h1
        exact hasKey_insertMany (insertOnConflictDoNothing s r) xs r
          (hasKey_insert_self s r)
      · exact ih _ h2

lemma insert_eq_of_hasKey (s : List CanonicalRow) (r : CanonicalRow)
    (h : hasKey s r = true) : insertOnConflictDoNothing s r = s := by
  unfold insertOnConflictDoNothing
  rw [if_pos h]

lemma insertMany_eq_of_hasKey (s : List CanonicalRow) (rows : List CanonicalRow)
    (h : ∀ r ∈ rows, hasKey s r = true) : insertManyOnConflict s rows = s := by
  induction rows with
  | nil => rfl
  | cons x xs ih =>
      have hx := h x (List.mem_cons_self x xs)
      show insertManyOnConflict (insertOnConflictDoNothing s x) xs = s
      rw [insert_eq_of_hasKey s x hx]
      exact ih (fun r hr => h r (List.mem_cons_of_mem x hr))

lemma insertMany_idem (s : List CanonicalRow) (rows : List CanonicalRow) :
    insertManyOnConflict (insertManyOnConflict s rows) rows =
      insertManyOnConflict s rows :=
  insertMany_eq_of_hasKey _ _ (fun r hr => hasKey_insertMany_of_mem s rows r hr)

/-- C1: writing the same CanonicalRow sequence twice leaves the store with
exactly the rows of one write, for every starting store and every row
sequence, in both the batched-insert writer (froniusSolar
write_to_timescale) and the stage-then-merge writer (smappee
_write_to_tsdb); moreover a row whose natural key is already present in
the store is silently skipped by the conflict policy. -/
theorem write_idempotent (s : List CanonicalRow) (rows : List CanonicalRow) :
    (write_to_timescale (write_to_timescale s rows).store rows).store =
        (write_to_timescale s rows).store ∧
    Smappee._write_to_tsdb (Smappee._write_to_tsdb s rows) rows =
        Smappee._write_to_tsdb s rows ∧
    (∀ t r, hasKey t r = true → insertOnConflictDoNothing t r = t) := by
  refine ⟨?_, insertMany_idem s rows, fun t r h => insert_eq_of_hasKey t r h⟩
  by_cases hrows : rows.isEmpty
  · simp [write_to_timescale, hrows]
  · simp [write_to_timescale, hrows, insertMany_idem]

def sampleRow : CanonicalRow :=
  { time := 0, client_id := "CTa9Xz7FbL2", location_id := "Lpx4WvbHkq",
    metric := "solar", value := 1, gateway := "A", sensor := 8,
    note := "EnergyProductionTotal" }

/-- Witness for C1 at a concrete store and row: a duplicate natural key is
skipped. -/
theorem write_idempotent_witness :
    insertOnConflictDoNothing [sampleRow] sampleRow = [sampleRow] :=
  (write_idempotent [] []).2.2 [sampleRow] sampleRow (by decide)

/-- C7: StoreWriter.write applied to the empty row sequence is a success
no-op in both vendor variants: zero database calls, the store unchanged,
result reported as ok. -/
theorem write_empty_noop (s : List CanonicalRow) :
    write_to_timescale s [] = { dbCalls := 0, store := s, ok := true } ∧
    Smartflow._write_to_tsdb s [] = { dbCalls := 0, store := s, ok := true } :=
  ⟨rfl, rfl⟩

/-! ## Token brokers

Each vendor keeps a mutable token_info mapping and a get_active_token
entry point.  The embedding passes the call-time clock `now` (epoch
seconds, Python time.time()) explicitly, and models the vendor token
endpoint by an oracle `fresh`: the token_info contents that the mutating
get_token call would leave behind on success.  The third result component
counts HTTP token-exchange requests performed (each get_token performs
exactly one fetch_token request). -/

namespace Fronius

/-- froniusSolar token_info: jwt_token, refresh_token, jwt_expires
(epoch seconds).  A falsy (empty) jwt_token marks the Empty state. -/
structure TokenInfo where
  jwt_token : String
  refresh_token : String
  jwt_expires : Int
deriving DecidableEq, Repr

/-- froniusSolar/helpers/token_refresh.py, get_active_token
(lines 76-86): password grant when the cached jwt_token is falsy, refresh
grant when now >= jwt_expires, otherwise return the cached pair having
made no HTTP request. -/
def get_active_token (now : Int) (info : TokenInfo) (fresh : TokenInfo) :
    TokenInfo × (String × String) × Nat :=
  if info.jwt_token = "" then
    (fresh, (fresh.jwt_token, fresh.refresh_token), 1)
  else if info.jwt_expires ≤ now then
    (fresh, (fresh.jwt_token, fresh.refresh_token), 1)
  else
    (info, (info.jwt_token, info.refresh_token), 0)

end Fronius

namespace Smartflow

/-- smartflow token_info: access/refresh tokens with separate expiries
(epoch seconds). -/
structure TokenInfo where
  access_token : String
  refresh_token : String
  access_expires : Int
  refresh_expires : Int
deriving DecidableEq, Repr

/-- smartflow/helpers/helpers.py, get_active_token (lines 75-92), after
the initial _load_token_from_tmp (the argument `info` is the post-load
state): password grant when the access token is falsy or
now >= refresh_expires, refresh grant when now >= access_expires,
otherwise the cached pair is returned with no HTTP request.  sf_user is
assumed supplied (the RuntimeError branches are not modelled). -/
def get_active_token (now : Int) (info : TokenInfo) (fresh : TokenInfo) :
    TokenInfo × (String × String) × Nat :=
  if info.access_token = "" then
    (fresh, (fresh.access_token, fresh.refresh_token), 1)
  else if info.refresh_expires ≤ now then
    (fresh, (fresh.access_token, fresh.refresh_token), 1)
  else if info.access_expires ≤ now then
    (fresh, (fresh.access_token, fresh.refresh_token), 1)
  else
    (info, (info.access_token, info.refresh_token), 0)

end Smartflow

namespace SmappeeUae

/-- smappee_uae/helpers/token_refresh.py, _is_token_valid (lines 92-96):
the token is valid iff the access token is truthy and the clock is
strictly below expires_at. -/
def _is_token_valid (now : Int) (access_token : String) (expires_at : Int) :
    Bool :=
  decide (access_token ≠ "") && decide (now < expires_at)

/-- smappee_uae/helpers/token_refresh.py, _get_token (lines 63-90): the
stored expiry computed from the response field expires_in with a
60-second safety margin, floored at the acquisition time. -/
def token_expires_at (now : Int) (expires_in : Int) : Int :=
  now + max (expires_in - 60) 0

/-- smappee_uae/helpers/token_refresh.py, _get_active_token
(lines 98-103): reuse the cached token when _is_token_valid holds,
otherwise perform one _get_token HTTP exchange. -/
def _get_active_token (now : Int) (access_token : String) (expires_at : Int)
    (freshToken : String) : String × Nat :=
  if _is_token_valid now access_token expires_at then (access_token, 0)
  else (freshToken, 1)

end SmappeeUae

/-- C2: a cached credential with a non-empty access token and
access expiry strictly in the future is reused: get_active_token makes
zero HTTP token-exchange requests and returns the cached token unchanged,
in the froniusSolar and smartflow brokers.  The smartflow variant also
checks the refresh expiry first, so the Credential invariant
refresh_expires >= access_expires (maintained by every get_token write,
which sets refresh_expires = access_expires + 23h) is assumed. -/
theorem token_reuse (now : Int) (fi ff : Fronius.TokenInfo)
    (si sf : Smartflow.TokenInfo)
    (hft : fi.jwt_token ≠ "") (hfe : now < fi.jwt_expires)
    (hst : si.access_token ≠ "") (hse : now < si.access_expires)
    (hinv : si.access_expires ≤ si.refresh_expires) :
    Fronius.get_active_token now fi ff =
        (fi, (fi.jwt_token, fi.refresh_token), 0) ∧
    Smartflow.get_active_token now si sf =
        (si, (si.access_token, si.refresh_token), 0) := by
  constructor
  · unfold Fronius.get_active_token
    rw [if_neg hft, if_neg (by omega)]
  · unfold Smartflow.get_active_token
    rw [if_neg hst, if_neg (by omega), if_neg (by omega)]

/-- Witness for C2 at a concrete clock and credential. -/
theorem token_reuse_witness :
    Fronius.get_active_token 50 ⟨"jwtA", "refA", 100⟩ ⟨"x", "y", 0⟩ =
        (⟨"jwtA", "refA", 100⟩, ("jwtA", "refA"), 0) ∧
    Smartflow.get_active_token 50 ⟨"accA", "refB", 100, 200⟩ ⟨"x", "y", 0, 0⟩ =
        (⟨"accA", "refB", 100, 200⟩, ("accA", "refB"), 0) :=
  token_reuse 50 ⟨"jwtA", "refA", 100⟩ ⟨"x", "y", 0⟩
    ⟨"accA", "refB", 100, 200⟩ ⟨"x", "y", 0, 0⟩
    (by decide) (by decide) (by decide) (by decide) (by decide)

/-- C3: with access expiry exactly equal to the clock, every vendor
variant treats the token as expired: froniusSolar and smartflow perform a
token exchange (refresh or re-authentication, one HTTP request) instead
of returning the cached token, and the smappee_uae validity check
rejects the token, so its broker also performs one exchange — the
boundary comparison is inclusive of the expiry instant. -/
theorem token_expiry_boundary (now : Int) (fi ff : Fronius.TokenInfo)
    (si sf : Smartflow.TokenInfo) (tok freshTok : String)
    (hft : fi.jwt_token ≠ "") (hfe : fi.jwt_expires = now)
    (hst : si.access_token ≠ "") (hse : si.access_expires = now) :
    (Fronius.get_active_token now fi ff).2.2 = 1 ∧
    (Smartflow.get_active_token now si sf).2.2 = 1 ∧
    SmappeeUae._is_token_valid now tok now = false ∧
    (SmappeeUae._get_active_token now tok now freshTok).2 = 1 := by
  have huae : SmappeeUae._is_token_valid now tok now = false := by
    unfold SmappeeUae._is_token_valid
    simp
  refine ⟨?_, ?_, huae, ?_⟩
  · unfold Fronius.get_active_token
    rw [if_neg hft, if_pos (by omega)]
  · unfold Smartflow.get_active_token
    rw [if_neg hst]
    rcases le_or_lt si.refresh_expires now with h | h
    · rw [if_pos h]
    · rw [if_neg (by omega), if_pos (by omega)]
  · unfold SmappeeUae._get_active_token
    rw [huae]
    simp

/-- Witness for C3 at a concrete clock and credentials. -/
theorem token_expiry_boundary_witness :
    (Fronius.get_active_token 100 ⟨"jwtA", "refA", 100⟩ ⟨"x", "y", 0⟩).2.2 = 1 ∧
    (Smartflow.get_active_token 100 ⟨"accA", "refB", 100, 200⟩
        ⟨"x", "y", 0, 0⟩).2.2 = 1 ∧
    SmappeeUae._is_token_valid 100 "tokA" 100 = false ∧
    (SmappeeUae._get_active_token 100 "tokA" 100 "freshA").2 = 1 :=
  token_expiry_boundary 100 ⟨"jwtA", "refA", 100⟩ ⟨"x", "y", 0⟩
    ⟨"accA", "refB", 100, 200⟩ ⟨"x", "y", 0, 0⟩ "tokA" "freshA"
    (by decide) rfl (by decide) rfl

/-- C10: every successful smappee_uae token acquisition stores
expires_at = now + max(expires_in - 60, 0), which is never earlier than
the acquisition time for non-negative expires_in; and when
expires_in <= 60 the stored expiry equals now, so the strict-inequality
validity check already rejects the token at the acquisition instant. -/
theorem uae_expiry_margin (now expires_in : Int) (tok : String)
    (h : 0 ≤ expires_in) :
    now ≤ SmappeeUae.token_expires_at now expires_in ∧
    (expires_in ≤ 60 →
      SmappeeUae.token_expires_at now expires_in = now ∧
      SmappeeUae._is_token_valid now tok
        (SmappeeUae.token_expires_at now expires_in) = false) := by
  constructor
  · unfold SmappeeUae.token_expires_at
    have h0 : (0 : Int) ≤ max (expires_in - 60) 0 := le_max_right _ _
    omega
  · intro h60
    have heq : SmappeeUae.token_expires_at now expires_in = now := by
      unfold SmappeeUae.token_expires_at
      rw [max_eq_right (by omega)]
      omega
    refine ⟨heq, ?_⟩
    rw [heq]
    unfold SmappeeUae._is_token_valid
    simp

/-- Witness for C10 at a concrete acquisition time and expires_in. -/
theorem uae_expiry_margin_witness :
    (1000 : Int) ≤ SmappeeUae.token_expires_at 1000 30 ∧
    ((30 : Int) ≤ 60 →
      SmappeeUae.token_expires_at 1000 30 = 1000 ∧
      SmappeeUae._is_token_valid 1000 "tokA"
        (SmappeeUae.token_expires_at 1000 30) = false) :=
  uae_expiry_margin 1000 30 "tokA" (by decide)

/-! ## FetchClient retry loop (froniusSolar get_aggrdata)

froniusSolar/helpers/helpers.py line 2 reads
from datetime import datetime, timezone, time: the name time is bound to
the datetime.time class, not the time module.  datetime.time has no sleep
attribute, so the backoff call time.sleep(wait) on line 23 raises
AttributeError.  That exception is raised outside the try block, is not a
requests exception, and propagates out of get_aggrdata. -/

namespace Fronius

/-- Outcome of one HTTP GET as seen by get_aggrdata: a 2xx response with
a JSON payload, an HTTPError raised by raise_for_status with the given
status, or a network-level RequestException. -/
inductive HttpResp where
  | ok (payload : String)
  | httpError (status : Nat)
  | reqError
deriving DecidableEq, Repr

/-- How a get_aggrdata call terminates. -/
inductive FetchOutcome where
  | success (payload : String)
  | exhausted
  | sleepAttrError
deriving DecidableEq, Repr

/-- The for-loop of get_aggrdata over attempts, with attemptsLeft
remaining loop iterations and idx the 0-based index of the next request
in the response oracle.  Each iteration performs one GET; on success the
payload is returned; on a caught HTTPError or RequestException the code
reaches the backoff when further attempts remain (attempt < max_retries,
i.e. attemptsLeft > 1), where time.sleep raises AttributeError; on the
last attempt the loop simply ends and the function returns None
(exhausted).  The second component counts HTTP requests performed. -/
def get_aggrdata_go (responses : Nat → HttpResp) :
    Nat → Nat → FetchOutcome × Nat
  | 0, _ => (.exhausted, 0)
  | n + 1, idx =>
    match responses idx with
    | .ok p => (.success p, 1)
    | _ =>
      if n > 0 then (.sleepAttrError, 1)
      else (.exhausted, 1)

/-- froniusSolar/helpers/helpers.py, get_aggrdata (lines 7-25), with the
sequence of would-be HTTP outcomes supplied as an oracle indexed by
request number. -/
def get_aggrdata (responses : Nat → HttpResp) (max_retries : Nat := 3) :
    FetchOutcome × Nat :=
  get_aggrdata_go responses max_retries 0

end Fronius

/-- C4 (code bug): with responses 500, 500, then success, get_aggrdata
does not return the payload after 3 requests as the spec states: the
first backoff raises AttributeError (time is datetime.time, which has no
sleep), after exactly 1 request.  A 404 likewise performs 1 request and
raises the same AttributeError on its way to a retry — the code does not
fail fast on 4xx by design, it crashes in the backoff for every non-2xx
first response.  A first-attempt success still returns the payload with
exactly 1 request. -/
theorem fetch_retry_code_bug :
    Fronius.get_aggrdata
        (fun i => if i < 2 then .httpError 500 else .ok "payload") 3 =
      (.sleepAttrError, 1) ∧
    Fronius.get_aggrdata (fun _ => .httpError 404) 3 =
      (.sleepAttrError, 1) ∧
    Fronius.get_aggrdata (fun _ => .ok "payload") 3 =
      (.success "payload", 1) :=
  ⟨rfl, rfl, rfl⟩

/-! ## GatewaySensorResolver (smappee _get_gateway_sensor_info) -/

namespace Smappee

/-- Per-service-location client/location pair from the service_locations
table (empty string models a falsy/absent id). -/
structure SLInfo where
  client_id : String
  location_id : String
deriving DecidableEq, Repr

/-- One entry of the sensor_gateway_map value lists. -/
structure SensorEntry where
  sensor : Int
  gateway : String
  sensor_name : String
deriving DecidableEq, Repr

/-- new_gateway_counter.get(key, 0): the counter is an association list,
later updates shadowing earlier entries. -/
def counterGet (counter : List ((String × String) × Nat))
    (key : String × String) : Nat :=
  match counter.find? (fun p => decide (p.1 = key)) with
  | some p => p.2
  | none => 0

/-- new_gateway_counter[key] = v. -/
def counterSet (counter : List ((String × String) × Nat))
    (key : String × String) (v : Nat) : List ((String × String) × Nat) :=
  (key, v) :: counter

/-- smappee/helpers/helpers.py, new_gateway_id (lines 180-189): bijective
base-26 labels A, B, ..., Z, AA, AB, ...  The Python loop appends the
least-significant letter first (divmod by 26, then n -= 1 before the next
round) and reverses at the end; the fuel argument (n+1 at the call site)
bounds the loop and is never exhausted since n/26 - 1 < n. -/
def new_gateway_id_rev : Nat → Nat → List Char
  | 0, _ => []
  | fuel + 1, n =>
    let c := Char.ofNat (65 + n % 26)
    if n / 26 = 0 then [c] else c :: new_gateway_id_rev fuel (n / 26 - 1)

def new_gateway_id (n : Nat) : String :=
  String.mk (new_gateway_id_rev (n + 1) n).reverse

/-- The loop body of _get_gateway_sensor_info over the service_locations
items, threading new_gateway_counter.  query is the store lookup
SELECT DISTINCT gateway, sensor, note FROM main WHERE client_id = ... AND
location_id = ... AND note IN sensor_set AND time >= now - 1 day,
supplied as an oracle returning (gateway, sensor, note) records. -/
def resolver_go (query : String → String → List (String × Int × String))
    (sensor_index : List String) (sensor_set : List String) :
    List (String × SLInfo) → List ((String × String) × Nat) →
      List (String × List SensorEntry)
  | [], _ => []
  | (slid, info) :: rest, counter =>
    if slid ∈ sensor_index then
      if info.client_id = "" ∨ info.location_id = "" then
        resolver_go query sensor_index sensor_set rest counter
      else
        let records := query info.client_id info.location_id
        if records.isEmpty then
          let key := (info.client_id, info.location_id)
          let next_idx := counterGet counter key
          let gateway_label := new_gateway_id next_idx
          (slid, sensor_set.enum.map
              (fun p => ⟨(p.1 : Int) + 1, gateway_label, p.2⟩)) ::
            resolver_go query sensor_index sensor_set rest
              (counterSet counter key (next_idx + 1))
        else
          (slid, records.map (fun rec => ⟨rec.2.1, rec.1, rec.2.2⟩)) ::
            resolver_go query sensor_index sensor_set rest counter
    else
      resolver_go query sensor_index sensor_set rest counter

/-- smappee/helpers/helpers.py, _get_gateway_sensor_info (lines 173-248):
empty sensor_set short-circuits to an empty map (the isinstance guard on
service_locations is a type-level check with no counterpart here);
otherwise the loop above runs with an initially empty counter. -/
def _get_gateway_sensor_info
    (query : String → String → List (String × Int × String))
    (service_locations : List (String × SLInfo))
    (sensor_index : List String) (sensor_set : List String) :
    List (String × List SensorEntry) :=
  if sensor_set.isEmpty then []
  else resolver_go query sensor_index sensor_set service_locations []

end Smappee

/-- C5: with a store holding no prior rows (the lookback query returns no
records for any key), resolving sensor names L1, L2, L3 in that
enumeration order bootstraps gateway "A" (base-26 label of counter value
0) with sensor ids 1, 2, 3; and a second, distinct (client_id,
location_id) resolved in the same pass also receives gateway "A", because
new_gateway_counter is keyed per (client_id, location_id). -/
theorem resolver_bootstrap (slid₁ slid₂ c₁ l₁ c₂ l₂ : String)
    (hkey : (c₁, l₁) ≠ (c₂, l₂))
    (hc₁ : c₁ ≠ "") (hl₁ : l₁ ≠ "") (hc₂ : c₂ ≠ "") (hl₂ : l₂ ≠ "") :
    Smappee._get_gateway_sensor_info (fun _ _ => [])
        [(slid₁, ⟨c₁, l₁⟩), (slid₂, ⟨c₂, l₂⟩)] [slid₁, slid₂]
        ["L1", "L2", "L3"] =
      [(slid₁, [⟨1, "A", "L1"⟩, ⟨2, "A", "L2"⟩, ⟨3, "A", "L3"⟩]),
       (slid₂, [⟨1, "A", "L1"⟩, ⟨2, "A", "L2"⟩, ⟨3, "A", "L3"⟩])] := by
  have hand : ¬(c₁ = c₂ ∧ l₁ = l₂) := fun h =>
    hkey (by rw [h.1, h.2])
  have hboth : (decide (c₁ = c₂) && decide (l₁ = l₂)) = false := by
    by_cases h1 : c₁ = c₂
    · have h2 : l₁ ≠ l₂ := fun h2 => hand ⟨h1, h2⟩
      simp [h2]
    · simp [h1]
  simp [Smappee._get_gateway_sensor_info, Smappee.resolver_go,
    Smappee.counterGet, Smappee.counterSet, List.find?, hboth,
    hc₁, hl₁, hc₂, hl₂, Smappee.new_gateway_id, Smappee.new_gateway_id_rev]
  rfl

/-- Witness for C5 at concrete service locations and ids. -/
theorem resolver_bootstrap_witness :
    Smappee._get_gateway_sensor_info (fun _ _ => [])
        [("SL1", ⟨"CTone", "Lone"⟩), ("SL2", ⟨"CTtwo", "Ltwo"⟩)]
        ["SL1", "SL2"] ["L1", "L2", "L3"] =
      [("SL1", [⟨1, "A", "L1"⟩, ⟨2, "A", "L2"⟩, ⟨3, "A", "L3"⟩]),
       ("SL2", [⟨1, "A", "L1"⟩, ⟨2, "A", "L2"⟩, ⟨3, "A", "L3"⟩])] :=
  resolver_bootstrap "SL1" "SL2" "CTone" "Lone" "CTtwo" "Ltwo"
    (by decide) (by decide) (by decide) (by decide) (by decide)

/-! ## Octopus Energy consumption normalizer

octopusEnergy/octopusEnergyFunction/function_app.py,
_parse_consumption_results (lines 61-72).  The Python datetime library
functions used there (fromisoformat, astimezone(timezone.utc), strftime)
are modelled below for the fixed-width ISO shapes the function feeds
them: YYYY-MM-DDTHH:MM:SS with an optional +HH:MM / -HH:MM offset.
Calendar arithmetic uses the standard civil-from-days / days-from-civil
conversions of the proleptic Gregorian calendar.  Python floats are
modelled as rationals; for the concrete inputs below the IEEE-double
computation 0.002 * 1000 also yields exactly 2.0. -/

namespace Octopus

/-- Decimal digits to a number, none when empty or non-digit (the
int parsing that underlies the field extraction of fromisoformat). -/
def digitsToNat (cs : List Char) : Option Nat :=
  if cs.isEmpty then none
  else if cs.all (fun c => c.isDigit) then
    some (cs.foldl (fun a c => a * 10 + (c.toNat - 48)) 0)
  else none

def sliceNat (s : String) (a b : Nat) : Option Nat :=
  digitsToNat ((s.toList.drop a).take (b - a))

def charAt (s : String) (i : Nat) : Char :=
  s.toList.getD i ' '

/-- Python str.endswith with a one-character suffix. -/
def endsWithChar (s : String) (c : Char) : Bool :=
  match s.toList.reverse with
  | [] => false
  | x :: _ => x = c

/-- Python str.replace: every occurrence of the (non-empty) pattern is
replaced.  The fuel argument (the source length at the call site) bounds
the scan; every step consumes at least one character, so it is never
exhausted. -/
def replaceGo (pat rep : List Char) : Nat → List Char → List Char
  | 0, l => l
  | _ + 1, [] => []
  | fuel + 1, c :: rest =>
    if pat.isPrefixOf (c :: rest) then
      rep ++ replaceGo pat rep fuel ((c :: rest).drop pat.length)
    else
      c :: replaceGo pat rep fuel rest

def pyReplace (s pat rep : String) : String :=
  if pat.toList.isEmpty then s
  else (replaceGo pat.toList rep.toList s.toList.length s.toList).asString

/-- A Python datetime value: civil fields plus the tzinfo utcoffset in
minutes (none for a naive datetime). -/
structure PyDatetime where
  year : Int
  month : Int
  day : Int
  hour : Int
  minute : Int
  second : Int
  offsetMinutes : Option Int
deriving DecidableEq, Repr

/-- datetime.fromisoformat restricted to the fixed-width shapes
YYYY-MM-DDTHH:MM:SS and YYYY-MM-DDTHH:MM:SS±HH:MM; anything else is
rejected (the library raises ValueError, modelled as none, which
propagates out of the parse).  Field-range checks are the coarse bounds;
the exact per-month day validation of the library is not needed for the
inputs considered. -/
def fromisoformat (s : String) : Option PyDatetime :=
  if charAt s 4 = '-' ∧ charAt s 7 = '-' ∧ charAt s 10 = 'T' ∧
      charAt s 13 = ':' ∧ charAt s 16 = ':' then
    match sliceNat s 0 4, sliceNat s 5 7, sliceNat s 8 10,
        sliceNat s 11 13, sliceNat s 14 16, sliceNat s 17 19 with
    | some y, some mo, some d, some h, some mi, some se =>
      if 1 ≤ mo ∧ mo ≤ 12 ∧ 1 ≤ d ∧ d ≤ 31 ∧ h ≤ 23 ∧ mi ≤ 59 ∧ se ≤ 59 then
        if s.length = 19 then
          some ⟨y, mo, d, h, mi, se, none⟩
        else if s.length = 25 ∧ charAt s 22 = ':' then
          match sliceNat s 20 22, sliceNat s 23 25 with
          | some oh, some om =>
            if oh ≤ 23 ∧ om ≤ 59 then
              if charAt s 19 = '+' then
                some ⟨y, mo, d, h, mi, se, some ((oh : Int) * 60 + om)⟩
              else if charAt s 19 = '-' then
                some ⟨y, mo, d, h, mi, se, some (-((oh : Int) * 60 + om))⟩
              else none
            else none
          | _, _ => none
        else none
      else none
    | _, _, _, _, _, _ => none
  else none

/-- Days since 1970-01-01 of a proleptic-Gregorian civil date. -/
def daysFromCivil (y m d : Int) : Int :=
  let yy := if m ≤ 2 then y - 1 else y
  let era := (if 0 ≤ yy then yy else yy - 399) / 400
  let yoe := yy - era * 400
  let mp := (m + 9) % 12
  let doy := (153 * mp + 2) / 5 + d - 1
  let doe := yoe * 365 + yoe / 4 - yoe / 100 + doy
  era * 146097 + doe - 719468

/-- Civil date of a day count since 1970-01-01 (inverse of
daysFromCivil). -/
def civilFromDays (z0 : Int) : Int × Int × Int :=
  let z := z0 + 719468
  let era := (if 0 ≤ z then z else z - 146096) / 146097
  let doe := z - era * 146097
  let yoe := (doe - doe / 1460 + doe / 36524 - doe / 146096) / 365
  let y := yoe + era * 400
  let doy := doe - (365 * yoe + yoe / 4 - yoe / 100)
  let mp := (5 * doy + 2) / 153
  let d := doy - (153 * mp + 2) / 5 + 1
  let m := if mp < 10 then mp + 3 else mp - 9
  (if m ≤ 2 then y + 1 else y, m, d)

/-- datetime.astimezone(timezone.utc) on an aware value: shift the civil
fields by the negated utcoffset and attach tzinfo utc.  On a naive value
the library would substitute the host-local zone, which this model does
not cover (none); the normalizer only reaches this call with aware
values. -/
def astimezone_utc (dtv : PyDatetime) : Option PyDatetime :=
  match dtv.offsetMinutes with
  | none => none
  | some off =>
    let days := daysFromCivil dtv.year dtv.month dtv.day
    let totalMin : Int := days * 1440 + dtv.hour * 60 + dtv.minute - off
    let rem := totalMin % 1440
    let civ := civilFromDays (totalMin / 1440)
    some ⟨civ.1, civ.2.1, civ.2.2, rem / 60, rem % 60, dtv.second, some 0⟩

def padNum (w : Nat) (n : Int) : String :=
  let s := toString n.toNat
  String.mk (List.replicate (w - s.length) '0') ++ s

/-- strftime of the fixed pattern used by the normalizer: zero-padded
%Y-%m-%dT%H:%M:%S, with no offset suffix. -/
def strftime_ymdhms (dtv : PyDatetime) : String :=
  padNum 4 dtv.year ++ "-" ++ padNum 2 dtv.month ++ "-" ++ padNum 2 dtv.day ++
    "T" ++ padNum 2 dtv.hour ++ ":" ++ padNum 2 dtv.minute ++ ":" ++
    padNum 2 dtv.second

/-- One element of the consumption_json list: the fields the parser
reads. -/
structure Reading where
  consumption : Rat
  interval_end : String
deriving DecidableEq, Repr

/-- The loop body of _parse_consumption_results for one reading: scale
consumption by 1000, rewrite a trailing Z to +00:00, parse, convert to
UTC, format without offset. -/
def parse_one (r : Reading) : Option (String × Rat) :=
  let consumption := r.consumption * 1000
  let ts0 := r.interval_end
  let ts := if endsWithChar ts0 'Z' then pyReplace ts0 "Z" "+00:00" else ts0
  match fromisoformat ts with
  | none => none
  | some d =>
    match astimezone_utc d with
    | none => none
    | some du => some (strftime_ymdhms du, consumption)

/-- octopusEnergy function_app.py, _parse_consumption_results
(lines 61-72): the loop above over the results list.  A parse failure
raises, aborting the whole call (none overall). -/
def _parse_consumption_results (rs : List Reading) :
    Option (List (String × Rat)) :=
  rs.mapM parse_one

end Octopus

lemma octopus_parse_eval :
    Octopus._parse_consumption_results
        [⟨0.002, "2025-01-01T00:30:00Z"⟩] =
      some [("2025-01-01T00:30:00", 2)] := by
  have h1 : Octopus.parse_one ⟨0.002, "2025-01-01T00:30:00Z"⟩ =
      some ("2025-01-01T00:30:00", (0.002 : Rat) * 1000) := rfl
  have h2 : ((0.002 : Rat) * 1000) = 2 := by norm_num
  simp [Octopus._parse_consumption_results, List.mapM, List.mapM.loop, h1, h2]

/-- C6 counterexample: on the reading with consumption 0.002 and
interval_end 2025-01-01T00:30:00Z, the normalizer does not produce the
time string 2025-01-01T00:30:00+00:00 stated by the claim: the strftime
pattern %Y-%m-%dT%H:%M:%S drops the offset suffix. -/
theorem consumption_time_claim_false :
    Octopus._parse_consumption_results
        [⟨0.002, "2025-01-01T00:30:00Z"⟩] ≠
      some [("2025-01-01T00:30:00+00:00", 2)] := by
  rw [octopus_parse_eval]
  decide

/-- C6 amended: the reading with consumption 0.002 and interval_end
2025-01-01T00:30:00Z normalizes to value 2.0 (scaled by 1000) and time
string 2025-01-01T00:30:00 — the interval_end converted to UTC but
formatted without an offset suffix. -/
theorem consumption_scaling :
    Octopus._parse_consumption_results
        [⟨0.002, "2025-01-01T00:30:00Z"⟩] =
      some [("2025-01-01T00:30:00", 2)] :=
  octopus_parse_eval

/-! ## Solar normalizer (froniusSolar generate_tsdb_inserts) -/

namespace Fronius

/-- One element of the channels list of an entry.  channelName none models an
absent key (ch.get returns None); value none models an absent or null
value field. -/
structure Channel where
  channelName : Option String
  value : Option Rat
deriving DecidableEq, Repr

/-- One element of data.data; only the channels field is read. -/
structure FrEntry where
  channels : List Channel
deriving DecidableEq, Repr

/-- ch.get of the value field followed by `or 0`: an absent or null value
falls back to 0, and a falsy (zero) number is re-replaced by 0 —
numerically the identity on present numbers. -/
def channel_value (v : Option Rat) : Rat :=
  match v with
  | none => 0
  | some x => if x = 0 then 0 else x

/-- froniusSolar/helpers/helpers.py, generate_tsdb_inserts
(lines 29-60).  data none models a falsy payload (get_aggrdata returned
None); an empty data list makes the subscript data.data[0] raise
IndexError, which the enclosing except swallows, returning the rows
built so far (none yet).  The timestamp is datetime.now(utc), passed as
`now`.  metrics_map values are the hardcoded numeric sensor-id strings,
modelled as integers (the int() conversion applied by the code).
Channels with a falsy channelName or without a metrics_map entry are
skipped; all others produce a row. -/
def generate_tsdb_inserts (data : Option (List FrEntry)) (now : Int)
    (client_id location_id gateway metric : String)
    (metrics_map : List (String × Int)) : List CanonicalRow :=
  match data with
  | none => []
  | some entries =>
    match entries with
    | [] => []
    | entry :: _ =>
      entry.channels.filterMap (fun ch =>
        match ch.channelName with
        | none => none
        | some name =>
          if name = "" then none
          else
            match metrics_map.lookup name with
            | none => none
            | some sensor_id =>
              some { time := now, client_id := client_id,
                     location_id := location_id, metric := metric,
                     value := channel_value ch.value, gateway := gateway,
                     sensor := sensor_id, note := name })

end Fronius

/-- C9: a channel whose channelName is mapped in metrics_map still
produces a CanonicalRow with value 0.0 when its value field is absent,
null or zero; only channels whose channelName is missing or empty, or
without a metrics_map entry, are dropped. -/
theorem solar_falsy_value_not_skipped (now : Int)
    (cid lid gw met name : String) (sid : Int)
    (mm : List (String × Int)) (v : Option Rat)
    (hname : name ≠ "") (hmm : mm.lookup name = some sid)
    (hv : v = none ∨ v = some 0) :
    Fronius.generate_tsdb_inserts (some [⟨[⟨some name, v⟩]⟩]) now
        cid lid gw met mm =
      [{ time := now, client_id := cid, location_id := lid, metric := met,
         value := 0, gateway := gw, sensor := sid, note := name }] ∧
    (∀ w : Option Rat,
      Fronius.generate_tsdb_inserts (some [⟨[⟨none, w⟩]⟩]) now
        cid lid gw met mm = []) ∧
    (∀ w : Option Rat,
      Fronius.generate_tsdb_inserts (some [⟨[⟨some "", w⟩]⟩]) now
        cid lid gw met mm = []) ∧
    (∀ (other : String) (w : Option Rat), mm.lookup other = none →
      Fronius.generate_tsdb_inserts (some [⟨[⟨some other, w⟩]⟩]) now
        cid lid gw met mm = []) := by
  refine ⟨?_, ?_, ?_, ?_⟩
  · have hval : Fronius.channel_value v = 0 := by
      rcases hv with h | h <;> simp [h, Fronius.channel_value]
    simp [Fronius.generate_tsdb_inserts, hname, hmm, hval]
  · intro w
    simp [Fronius.generate_tsdb_inserts]
  · intro w
    simp [Fronius.generate_tsdb_inserts]
  · intro other w hother
    by_cases hoe : other = ""
    · simp [Fronius.generate_tsdb_inserts, hoe]
    · simp [Fronius.generate_tsdb_inserts, hoe, hother]

/-- Witness for C9 at a concrete channel list and metrics map. -/
theorem solar_falsy_value_not_skipped_witness :
    Fronius.generate_tsdb_inserts
        (some [⟨[⟨some "EnergyProductionTotal", none⟩]⟩]) 0
        "CTa9Xz7FbL2" "Lpx4WvbHkq" "A" "solar"
        [("EnergyProductionTotal", 8)] =
      [{ time := 0, client_id := "CTa9Xz7FbL2", location_id := "Lpx4WvbHkq",
         metric := "solar", value := 0, gateway := "A", sensor := 8,
         note := "EnergyProductionTotal" }] :=
  (solar_falsy_value_not_skipped 0 "CTa9Xz7FbL2" "Lpx4WvbHkq" "A" "solar"
    "EnergyProductionTotal" 8 [("EnergyProductionTotal", 8)] none
    (by decide) (by decide) (Or.inl rfl)).1

/-! ## Token cache persistence (atomicity of save)

A save is modelled as the sequence of filesystem operations the Python
code performs; the filesystem is a map from path to optional contents.
A crash may happen between any two operations, or in the middle of a
write_text/open-write, in which case the written file holds arbitrary
torn content.  os.replace is atomic (the vendor code relies on this on a
same-filesystem rename). -/

inductive FsOp where
  | writeFile (path content : String)
  | replace (src dst : String)
deriving DecidableEq, Repr

def applyOp (fs : String → Option String) : FsOp → (String → Option String)
  | .writeFile p c => fun q => if q = p then some c else fs q
  | .replace src dst => fun q =>
      if q = dst then fs src else if q = src then none else fs q

def runOps (fs : String → Option String) (ops : List FsOp) :
    String → Option String :=
  ops.foldl applyOp fs

/-- Contents of `slot` when the process crashes after the first k
operations of a save. -/
def crashSlotBetween (fs0 : String → Option String) (ops : List FsOp)
    (slot : String) (k : Nat) : Option String :=
  runOps fs0 (ops.take k) slot

/-- Contents of `slot` when the process crashes in the middle of
operation k, provided that operation is a file write (torn content
`torn` ends up in its target); none when operation k is not a write (or
does not exist), since a rename has no intermediate state. -/
def crashSlotMidWrite (fs0 : String → Option String) (ops : List FsOp)
    (slot : String) (k : Nat) (torn : String) : Option (Option String) :=
  match ops.get? k with
  | some (FsOp.writeFile p _) =>
      some (if slot = p then some torn else runOps fs0 (ops.take k) slot)
  | _ => none

/-- pathlib Path.with_suffix(".tmp"): drop the final extension and
append .tmp. -/
def dropLastExt (cs : List Char) : List Char :=
  if '.' ∈ cs then ((cs.reverse.dropWhile (fun c => c ≠ '.')).drop 1).reverse
  else cs

def with_suffix_tmp (p : String) : String :=
  (dropLastExt p.toList).asString ++ ".tmp"

namespace Fronius

/-- froniusSolar/helpers/token_refresh.py TOKEN_PY_PATH. -/
def TOKEN_PY_PATH : String := "/tmp/fronius_token_info.py"

/-- froniusSolar/helpers/token_refresh.py, write_token_to_file
(lines 15-23): the rendered token module text is written by open(path,
"w") directly at TOKEN_PY_PATH — no temporary file, no rename. -/
def write_token_to_file_ops (content : String) : List FsOp :=
  [.writeFile TOKEN_PY_PATH content]

end Fronius

namespace Smartflow

/-- smartflow/function_app.py: Path(tempfile.gettempdir()) /
"smartflow_tokens.json" on the Linux function host. -/
def TOKEN_STORE_PATH : String := "/tmp/smartflow_tokens.json"

/-- smartflow/helpers/helpers.py, _write_token_to_tmp (lines 17-34):
write the JSON payload to token_path.with_suffix(".tmp"), then
os.replace it onto token_path.  The finally-block unlink only fires when
the temporary file still exists, which after a successful replace it
does not. -/
def _write_token_to_tmp_ops (payload : String) : List FsOp :=
  [.writeFile (with_suffix_tmp TOKEN_STORE_PATH) payload,
   .replace (with_suffix_tmp TOKEN_STORE_PATH) TOKEN_STORE_PATH]

end Smartflow

namespace SmappeeUae

/-- smappee_uae/helpers/token_refresh.py TOKEN_STORE_PATH:
Path(tempfile.gettempdir()) / "uae_smappee_token.json". -/
def TOKEN_STORE_PATH : String := "/tmp/uae_smappee_token.json"

/-- smappee_uae/helpers/token_refresh.py, _write_token_to_tmp
(lines 46-61): same temp-then-replace pattern as smartflow. -/
def _write_token_to_tmp_ops (payload : String) : List FsOp :=
  [.writeFile (with_suffix_tmp TOKEN_STORE_PATH) payload,
   .replace (with_suffix_tmp TOKEN_STORE_PATH) TOKEN_STORE_PATH]

end SmappeeUae

/-- The pre-save filesystem used in the froniusSolar torn-write
scenario: the persisted slot holds a previous complete credential
file. -/
def froniusOldFs : String → Option String :=
  fun p => if p = Fronius.TOKEN_PY_PATH then some "OLD" else none

/-- C8 counterexample: the froniusSolar token persistence writes the
persisted slot in place, so a crash in the middle of the write leaves
the slot holding torn content that is neither the previous credential
file nor the new one. -/
theorem token_save_claim_false :
    crashSlotMidWrite froniusOldFs (Fronius.write_token_to_file_ops "NEW")
        Fronius.TOKEN_PY_PATH 0 "NE" = some (some "NE") ∧
    (some "NE" : Option String) ≠ froniusOldFs Fronius.TOKEN_PY_PATH ∧
    (some "NE" : Option String) ≠ some "NEW" :=
  ⟨rfl, by decide, by decide⟩

/-- C8 amended: the smartflow and smappee_uae token caches save
atomically — they write the payload to a .tmp path and move it onto the
persisted slot with os.replace, so at every crash point (between
operations or mid-write) the slot holds either the previous contents or
the complete new payload — but the froniusSolar variant writes its token
file in place, so an interrupted save can leave a torn file there. -/
theorem token_save_atomicity (fs0 : String → Option String)
    (payload torn : String) (k : Nat) :
    (crashSlotBetween fs0 (Smartflow._write_token_to_tmp_ops payload)
          Smartflow.TOKEN_STORE_PATH k = fs0 Smartflow.TOKEN_STORE_PATH ∨
      crashSlotBetween fs0 (Smartflow._write_token_to_tmp_ops payload)
          Smartflow.TOKEN_STORE_PATH k = some payload) ∧
    (crashSlotMidWrite fs0 (Smartflow._write_token_to_tmp_ops payload)
          Smartflow.TOKEN_STORE_PATH k torn = none ∨
      crashSlotMidWrite fs0 (Smartflow._write_token_to_tmp_ops payload)
          Smartflow.TOKEN_STORE_PATH k torn =
        some (fs0 Smartflow.TOKEN_STORE_PATH)) ∧
    (crashSlotBetween fs0 (SmappeeUae._write_token_to_tmp_ops payload)
          SmappeeUae.TOKEN_STORE_PATH k = fs0 SmappeeUae.TOKEN_STORE_PATH ∨
      crashSlotBetween fs0 (SmappeeUae._write_token_to_tmp_ops payload)
          SmappeeUae.TOKEN_STORE_PATH k = some payload) ∧
    (crashSlotMidWrite fs0 (SmappeeUae._write_token_to_tmp_ops payload)
          SmappeeUae.TOKEN_STORE_PATH k torn = none ∨
      crashSlotMidWrite fs0 (SmappeeUae._write_token_to_tmp_ops payload)
          SmappeeUae.TOKEN_STORE_PATH k torn =
        some (fs0 SmappeeUae.TOKEN_STORE_PATH)) ∧
    (crashSlotMidWrite froniusOldFs (Fronius.write_token_to_file_ops "NEW")
        Fronius.TOKEN_PY_PATH 0 "NE" = some (some "NE") ∧
      (some "NE" : Option String) ≠ froniusOldFs Fronius.TOKEN_PY_PATH ∧
      (some "NE" : Option String) ≠ some "NEW") := by
  have hsf : Smartflow.TOKEN_STORE_PATH ≠
      with_suffix_tmp Smartflow.TOKEN_STORE_PATH := by decide
  have huae : SmappeeUae.TOKEN_STORE_PATH ≠
      with_suffix_tmp SmappeeUae.TOKEN_STORE_PATH := by decide
  refine ⟨?_, ?_, ?_, ?_, rfl, by decide, by decide⟩
  · rcases k with _ | _ | k
    · exact Or.inl rfl
    · left
      simp [crashSlotBetween, runOps, applyOp,
        Smartflow._write_token_to_tmp_ops, hsf]
    · right
      simp [crashSlotBetween, runOps, applyOp,
        Smartflow._write_token_to_tmp_ops]
  · rcases k with _ | _ | k
    · right
      simp [crashSlotMidWrite, Smartflow._write_token_to_tmp_ops,
        crashSlotBetween, runOps, hsf]
    · exact Or.inl rfl
    · exact Or.inl rfl
  · rcases k with _ | _ | k
    · exact Or.inl rfl
    · left
      simp [crashSlotBetween, runOps, applyOp,
        SmappeeUae._write_token_to_tmp_ops, huae]
    · right
      simp [crashSlotBetween, runOps, applyOp,
        SmappeeUae._write_token_to_tmp_ops]
  · rcases k with _ | _ | k
    · right
      simp [crashSlotMidWrite, SmappeeUae._write_token_to_tmp_ops,
        crashSlotBetween, runOps, huae]
    · exact Or.inl rfl
    · exact Or.inl rfl

end FunctionApps
